import Mathlib

/-!
Verification development for the ai-base-project backend.

This file gives a shallow embedding, in Lean, of the parts of the Python
code base that the checked properties talk about:

* the domain-advisor clarification flow (`app/agents/base_agent.py`,
  `app/agents/attrition_agent.py`),
* the conversation workflow orchestrator (`app/graph/workflow.py`) and the
  advisor manager (`app/agents/agent_manager.py`),
* the 13-stage lead-enrichment pipeline (`app/tasks/lead_tasks.py`),
* the AI lead-scoring engine (`app/utils/ai_lead_scoring.py`),
* the generic row-update helper (`app/utils/db_utils.py`),
* the lead/company data services (`app/services/lead_service.py`,
  `app/services/company_service.py`) and the leads HTTP endpoints
  (`app/api/v1/endpoints/leads.py`),
* bearer-token issuance and verification (`app/api/v1/endpoints/auth.py`).

Python dictionaries are embedded as association lists over a small inductive
type `PyVal` of Python values; external effects (HTTP, database, model and
scraping providers) are passed in as oracle functions, and the embedded code
records which external calls it makes so that "no call is issued" claims can
be stated.  Exceptions are embedded with `Except`.
-/

namespace AiBase

/-- A Python value, as far as the embedded code needs to distinguish them:
`None`, booleans, integers, exact decimals (floats such as `0.5` that the
source only ever constructs and compares, never computes with), strings,
lists and string-keyed dictionaries. -/
inductive PyVal where
  | vNone : PyVal
  | vBool : Bool → PyVal
  | vInt : Int → PyVal
  | vRat : ℚ → PyVal
  | vStr : String → PyVal
  | vList : List PyVal → PyVal
  | vDict : List (String × PyVal) → PyVal
deriving Repr

/-- Python truthiness (`bool(v)`): `None`, `False`, `0`, `0.0`, `""`, `[]`
and `{}` are falsy, everything else is truthy. -/
def pyTruthy : PyVal → Bool
  | .vNone => false
  | .vBool b => b
  | .vInt n => n != 0
  | .vRat q => q != 0
  | .vStr s => s ≠ ""
  | .vList xs => !xs.isEmpty
  | .vDict xs => !xs.isEmpty

/-- Truthiness of an optional value (`None` for an absent value). -/
def pyTruthyOpt : Option PyVal → Bool
  | some v => pyTruthy v
  | none => false

/-- A Python `dict` with string keys, embedded as an association list in
insertion order. -/
abbrev Dict := List (String × PyVal)

/-- `d[k]` / `k in d` lookup: the value stored under `k`, if any. -/
def dictGet (d : Dict) (k : String) : Option PyVal :=
  (d.find? fun p => p.1 = k).map fun p => p.2

/-- `d.get(k, default)`. -/
def dictGetD (d : Dict) (k : String) (dflt : PyVal) : PyVal :=
  (dictGet d k).getD dflt

/-- `k in d`. -/
def dictHas (d : Dict) (k : String) : Bool :=
  (dictGet d k).isSome

/-- `d[k] = v`: overwrite in place if the key exists, append otherwise
(Python dicts preserve insertion order). -/
def dictSet (d : Dict) (k : String) (v : PyVal) : Dict :=
  if dictHas d k then d.map (fun p => if p.1 = k then (k, v) else p)
  else d ++ [(k, v)]

/-- Attribute access `obj.k` on a structured-output object whose fields are
embedded as a dict, where a stored `None` is the Python `None` (absent). -/
def pyAttr (v : PyVal) (k : String) : Option PyVal :=
  match v with
  | .vDict d =>
    match dictGet d k with
    | some .vNone => none
    | some w => some w
    | none => none
  | _ => none

/-! ## Conversation context and agent responses

`ConversationContext` is the caller-owned mapping of accumulated facts.
`AgentResponse` is `app/agents/base_agent.py`'s pydantic model. -/

abbrev Context := Dict

/-- `AgentResponse` (`app/agents/base_agent.py`): the advisor's structured
reply to one conversational turn.  `confidence` values in the source are
exact decimal literals (0.8, 0.5, 0.3), embedded as rationals. -/
structure AgentResponse where
  action_plan : String
  next_questions : List String := []
  updated_context : Context := []
  confidence : ℚ := 8/10
  requires_clarification : Bool := false
deriving Repr

/-- Inner loop of `BaseAgent.check_clarification_needed`
(`app/agents/base_agent.py` lines 79–85): walk the required fields with
their indices and return the first index whose field is absent from the
context or stored with a falsy value. -/
def checkClarificationAux (ctx : Context) : Nat → List String → Int
  | _, [] => -1
  | i, f :: rest =>
    match dictGet ctx f with
    | none => Int.ofNat i
    | some v => if pyTruthy v then checkClarificationAux ctx (i + 1) rest else Int.ofNat i

/-- `BaseAgent.check_clarification_needed(context)`: returns the index of
the next missing required context field, or `-1` if all are filled. -/
def check_clarification_needed (required : List String) (ctx : Context) : Int :=
  checkClarificationAux ctx 0 required

/-- `AttritionAgent.get_required_context_fields()`
(`app/agents/attrition_agent.py`). -/
def attritionRequiredFields : List String :=
  ["team_size", "turnover_rate", "department", "time_period"]

/-- `AttritionAgent.generate_clarifying_questions(context)`: one fixed
question per required field that is not a key of the context (membership
test, not truthiness). -/
def attritionClarifyingQuestions (ctx : Context) : List String :=
  (if dictHas ctx "team_size" then [] else
    ["What is the size of your team or department?"]) ++
  (if dictHas ctx "turnover_rate" then [] else
    ["What is your current turnover rate or how many people have left recently?"]) ++
  (if dictHas ctx "department" then [] else
    ["Which department or team is experiencing attrition?"]) ++
  (if dictHas ctx "time_period" then [] else
    ["Over what time period has this attrition occurred?"])

/-- `AttritionAgent._generate_action_plan`: invoke the structured
chat-completion (abstracted as the `model` oracle).  On success, an empty
`updated_context` is replaced by a copy of the input context; on any
exception a fixed fallback response with confidence 0.3 is returned. -/
def attrition_generate_action_plan (model : Except String AgentResponse)
    (ctx : Context) : AgentResponse :=
  match model with
  | .ok result =>
    if result.updated_context.isEmpty then { result with updated_context := ctx }
    else result
  | .error _ =>
    { action_plan := "I encountered an error generating the action plan. Please try again."
      next_questions := ["Could you provide more details about the attrition issue?"]
      updated_context := ctx
      confidence := 3/10
      requires_clarification := false }

/-- The outcome of one `run_agent` call, together with whether the
chat-completion client was invoked. -/
structure AgentRunOutcome where
  response : AgentResponse
  modelCalled : Bool
deriving Repr

/-- `AttritionAgent.run_agent(user_query, context, ...)`
(`app/agents/attrition_agent.py` lines 47–74).  The source computes
`needs_clarification = self.check_clarification_needed(context)` — an
*index* — and then branches on `if needs_clarification:`, i.e. on the
Python truthiness of that integer (truthy iff nonzero).  If truthy it
returns the clarification response (confidence 0.5) without a model call;
otherwise it calls the model via `_generate_action_plan`. -/
def attrition_run_agent (model : Except String AgentResponse)
    (ctx : Context) : AgentRunOutcome :=
  let needs_clarification := check_clarification_needed attritionRequiredFields ctx
  if needs_clarification ≠ 0 then
    { response :=
        { action_plan := "I need more information to provide a comprehensive attrition analysis."
          next_questions := attritionClarifyingQuestions ctx
          updated_context := ctx
          confidence := 1/2
          requires_clarification := true }
      modelCalled := false }
  else
    { response := attrition_generate_action_plan model ctx
      modelCalled := true }

/-- A context carrying all four of the Attrition advisor's required fields. -/
def attritionFullContext : Context :=
  [("team_size", .vStr "25"), ("turnover_rate", .vStr "40%"),
   ("department", .vStr "sales"), ("time_period", .vStr "this year")]

/-- A context carrying only `team_size`. -/
def attritionTeamSizeOnly : Context := [("team_size", .vStr "25")]

/-! ## Conversation workflow orchestrator (`app/graph/workflow.py`)

The per-request `WorkflowState` fields the classification and routing nodes
read and write.  In the source this is a `TypedDict` whose classification
fields hold whatever values came back from JSON or from the caller-supplied
context, so they are embedded as `PyVal`. -/

structure WorkflowState where
  user_query : String
  original_user_query : String
  problem_type : PyVal
  suggested_agent : PyVal
  confidence : PyVal
  context : Context
deriving Repr

/-- `v > 0` as Python evaluates it for the numeric confidence values the
workflow compares (ints, floats and bools). -/
def pyGtZero : PyVal → Bool
  | .vInt n => 0 < n
  | .vRat q => 0 < q
  | .vBool b => b
  | _ => false

/-- The classification oracle: the HTTP `POST /chat_bot/classify-problem`
call.  `some (pt, sa, conf)` is a 200 response carrying those JSON fields;
`none` is a non-200 status or a transport exception. -/
abbrev ClassifyOracle := String → Option (PyVal × PyVal × PyVal)

/-- Result of the classifier node together with whether the HTTP
classification call was issued. -/
structure ClassifierOutcome where
  state : WorkflowState
  apiCalled : Bool
deriving Repr

/-- `MultiAgentWorkflow.problem_classifier_node` (`app/graph/workflow.py`
lines 109–184).  If the accumulated context already carries a truthy
`problem_type`, a truthy `suggested_agent` and a confidence `> 0`, those
exact values are copied into the state and no classification call is made.
Failing that, if the state itself already carries a truthy
`suggested_agent` and `problem_type`, the node returns the state unchanged,
again without a call.  Otherwise it calls the classification endpoint on
`original_user_query`, writing its result — or, on failure, the defaults
`"Other"`/`"DefaultAgent"`/`0.3` — into the state.  No branch writes the
classification into the context (`state["context"] = state.get("context", {})`
re-assigns the context to itself). -/
def problem_classifier_node (classify : ClassifyOracle)
    (state : WorkflowState) : ClassifierOutcome :=
  let context := state.context
  let existing_problem_type := dictGetD context "problem_type" (.vStr "")
  let existing_suggested_agent := dictGetD context "suggested_agent" (.vStr "")
  let existing_confidence := dictGetD context "confidence" (.vRat 0)
  if pyTruthy existing_problem_type ∧ pyTruthy existing_suggested_agent ∧
      pyGtZero existing_confidence then
    { state := { state with
        problem_type := existing_problem_type
        suggested_agent := existing_suggested_agent
        confidence := existing_confidence }
      apiCalled := false }
  else if pyTruthy state.suggested_agent ∧ pyTruthy state.problem_type then
    { state := state, apiCalled := false }
  else
    match classify state.original_user_query with
    | some (pt, sa, conf) =>
      { state := { state with problem_type := pt, suggested_agent := sa, confidence := conf }
        apiCalled := true }
    | none =>
      { state := { state with
          problem_type := .vStr "Other"
          suggested_agent := .vStr "DefaultAgent"
          confidence := .vRat (3/10) }
        apiCalled := true }

/-- The initial state built by `MultiAgentWorkflow.execute`
(`app/graph/workflow.py` lines 408–453): seed `original_user_query` from a
truthy `original_query` (else from `user_query`), default the context to
`{}`, and — when a context was supplied that contains both
`suggested_agent` and `problem_type` keys — copy those values (and the
context's confidence, defaulting to 0.5) into the state up front. -/
def execute_initial_state (user_query : String) (context : Option Context)
    (original_query : Option String) : WorkflowState :=
  let ouq : String :=
    match original_query with
    | some oq => if oq ≠ "" then oq else user_query
    | none => user_query
  let base : WorkflowState :=
    { user_query := user_query
      original_user_query := ouq
      problem_type := .vStr ""
      suggested_agent := .vStr ""
      confidence := .vRat 0
      context := context.getD [] }
  match context with
  | some ctx =>
    if ¬ ctx.isEmpty ∧ dictHas ctx "suggested_agent" ∧ dictHas ctx "problem_type" then
      { base with
          suggested_agent := dictGetD ctx "suggested_agent" (.vStr "")
          problem_type := dictGetD ctx "problem_type" (.vStr "")
          confidence := dictGetD ctx "confidence" (.vRat (1/2)) }
    else base
  | none => base

/-! ## Advisor manager (`app/agents/agent_manager.py`) -/

/-- `AgentManager.agent_class_to_problem_type`: the fixed reverse table from
advisor implementation identifiers to registered domain names. -/
def agent_class_to_problem_type : List (String × String) :=
  [("AttritionAgent", "Attrition"),
   ("EngagementAgent", "Engagement"),
   ("PerformanceAgent", "Performance"),
   ("CultureAgent", "Culture"),
   ("LeadershipAgent", "Leadership Readiness"),
   ("ExecutionAgent", "Profitability/Execution"),
   ("DEIAgent", "DEI/Fairness"),
   ("DefaultAgent", "Default")]

/-- The keys of `AgentManager.agents`: the domain names with a registered
advisor instance. -/
def registeredAgentNames : List String :=
  ["Attrition", "Engagement", "Performance", "Culture", "Leadership Readiness",
   "Profitability/Execution", "DEI/Fairness", "Default"]

/-- Lookup in a string-to-string table (`dict.get`). -/
def tableGet (m : List (String × String)) (k : String) : Option String :=
  (m.find? fun p => p.1 = k).map fun p => p.2

/-- The advisor-selection logic of `AgentManager.route_to_agent`
(`app/agents/agent_manager.py` lines 51–101): a truthy `suggested_agent`
takes precedence and is mapped through the reverse table (falling back to
`problem_type` for an unknown identifier); otherwise `problem_type` is used
directly.  The resolved name is looked up among the registered advisors,
falling back to the Default advisor when absent.  Returns the domain name
of the advisor that will be invoked (`none` only in the defensive case in
which even the Default advisor is unregistered, which cannot happen with
the table above). -/
def route_to_agent_selection (problem_type suggested_agent : PyVal) : Option String :=
  let agent_problem_type : PyVal :=
    if pyTruthy suggested_agent then
      match suggested_agent with
      | .vStr s =>
        match tableGet agent_class_to_problem_type s with
        | some pt => .vStr pt
        | none => problem_type
      | _ => problem_type
    else problem_type
  let hit : Option String :=
    match agent_problem_type with
    | .vStr s => if s ∈ registeredAgentNames then some s else none
    | _ => none
  match hit with
  | some s => some s
  | none => if "Default" ∈ registeredAgentNames then some "Default" else none

/-- The re-assertion prefix of `MultiAgentWorkflow.agent_manager_node`
(`app/graph/workflow.py` lines 186–213): if the context carries a truthy
`suggested_agent` and `problem_type`, those override the state before the
manager is invoked; the manager is then called with the state's
(`problem_type`, `suggested_agent`) pair. -/
def agent_manager_node_selection (state : WorkflowState) : PyVal × PyVal :=
  let original_agent := dictGetD state.context "suggested_agent" (.vStr "")
  let original_problem_type := dictGetD state.context "problem_type" (.vStr "")
  if pyTruthy original_agent ∧ pyTruthy original_problem_type then
    (original_problem_type, original_agent)
  else (state.problem_type, state.suggested_agent)

/-- One turn of the orchestrator up to advisor selection: build the initial
state as `execute` does, run the classifier node, re-assert the pair from
context as the agent-manager node does, and select the advisor.  Returns
the selected advisor's domain name, whether a classification call was
issued, and the context the state carries at selection time. -/
def turn_advisor_selection (classify : ClassifyOracle) (user_query : String)
    (context : Option Context) (original_query : Option String) :
    Option String × Bool × Context :=
  let s0 := execute_initial_state user_query context original_query
  let c1 := problem_classifier_node classify s0
  let sel := agent_manager_node_selection c1.state
  (route_to_agent_selection sel.1 sel.2, c1.apiCalled, c1.state.context)

/-! ## Lead enrichment pipeline (`app/tasks/lead_tasks.py`)

The pipeline's `State` `TypedDict`: `name`/`company_name` are declared
`str`; the enrichment output fields are `Optional`, embedded as
`Option PyVal` with `none` for Python `None`. -/

structure EnrichState where
  lead_details : PyVal
  name : String
  company_name : String
  designation : PyVal
  email : PyVal
  google_results : Option PyVal
  linkedin_url : Option PyVal
  linkedin_details_raw : Option PyVal
  linkedin_details : Option PyVal
  lead_score : Option PyVal
  company_search_results : Option PyVal
  company_linkedin_url : Option PyVal
  company_linkedin_details : Option PyVal
  company_linkedin_analysis : Option PyVal
  glassdoor_url : Option PyVal
  glassdoor_details : Option PyVal
  glassdoor_analysis : Option PyVal
  company_insights : Option PyVal
  lead_stage : Option PyVal
  stage_metadata : Option PyVal
deriving Repr

/-- The pipeline's external clients, as oracles.  Return conventions match
the source: `serp_search`, `scrape_with_web_unlocker` and `get_snapshot`
return `None` on failure (`app/utils/web_search.py`,
`app/utils/bright_data_helper.py`); the trigger helpers raise on a non-2xx
response; `poll_progress` returns a boolean (raising only if the API key is
unset); the structured chat-completion invocations raise on failure.
`call_ai` is the scoring engine's `_call_ai` composed with `json.loads`:
either the parsed JSON object of the model reply, or the raised/parse
error. -/
structure Ext where
  serp_search : String → String → Option PyVal
  scrape_with_web_unlocker : PyVal → Option PyVal
  trigger_scrape : String → List (Option PyVal) → Except String PyVal
  trigger_scrape_glassdoor_comments : String → List PyVal → Except String PyVal
  poll_progress : PyVal → Except String Bool
  get_snapshot : PyVal → Option PyVal
  llm_invoke : String → PyVal → Except String PyVal
  call_ai : PyVal → PyVal → Except String (List (String × PyVal))

/-- A stage's result: the value it stores into its output field, plus the
names of the external calls it performed, or a raised exception. -/
abbrev StageResult := Except String (Option PyVal × List String)

/-! Prompt-pair builders from `app/utils/prompts.py`.  The prompt text
itself is static string data that no checked property depends on; each
builder is embedded as the record of its task and inputs (the message pair
handed to the chat-completion call). -/

/-- `get_linkedin_url_messages(lead_details, google_results)`. -/
def get_linkedin_url_messages (lead_details google_results : PyVal) : PyVal :=
  .vDict [("task", .vStr "linkedin_url"), ("lead_details", lead_details),
          ("google_results", google_results)]

/-- `get_linkedin_profile_analysis_messages(lead_details, raw)`. -/
def get_linkedin_profile_analysis_messages (lead_details raw : PyVal) : PyVal :=
  .vDict [("task", .vStr "linkedin_profile_analysis"), ("lead_details", lead_details),
          ("linkedin_details_raw", raw)]

/-- `get_company_summary_messages(company_name, website_url, website_content)`. -/
def get_company_summary_messages (company_name : String)
    (website_url website_content : PyVal) : PyVal :=
  .vDict [("task", .vStr "company_summary"), ("company_name", .vStr company_name),
          ("website_url", website_url), ("website_content", website_content)]

/-- `get_company_linkedin_url_messages(company_details, google_results)`. -/
def get_company_linkedin_url_messages (company_details google_results : PyVal) : PyVal :=
  .vDict [("task", .vStr "company_linkedin_url"), ("company_details", company_details),
          ("google_results", google_results)]

/-- `get_linkedin_company_analysis_messages(company_linkedin_details)`. -/
def get_linkedin_company_analysis_messages (details : PyVal) : PyVal :=
  .vDict [("task", .vStr "linkedin_company_analysis"), ("company_linkedin_details", details)]

/-- `get_glassdoor_url_messages(company_details, search_results)`. -/
def get_glassdoor_url_messages (company_details search_results : PyVal) : PyVal :=
  .vDict [("task", .vStr "glassdoor_url"), ("company_details", company_details),
          ("search_results", search_results)]

/-- `get_glassdoor_analysis_messages(company_name, reviews)`. -/
def get_glassdoor_analysis_messages (company_name : String) (reviews : List PyVal) : PyVal :=
  .vDict [("task", .vStr "glassdoor_analysis"), ("company_name", .vStr company_name),
          ("reviews", .vList reviews)]

/-- `get_company_insights_messages(company_name, company_data)`. -/
def get_company_insights_messages (company_name : String) (company_data : PyVal) : PyVal :=
  .vDict [("task", .vStr "company_insights"), ("company_name", .vStr company_name),
          ("company_data", company_data)]

/-! The 13 stage functions.  Every stage first short-circuits on an already
populated output field (`state.get(field) is not None`), returning it
unchanged with no external call. -/

/-- Stage 1, `serp_search_google`: search for `"{name} {company_name}"`. -/
def serp_search_google (ext : Ext) (s : EnrichState) : StageResult :=
  match s.google_results with
  | some existing_results => .ok (some existing_results, [])
  | none =>
    let search_query := s.name ++ " " ++ s.company_name
    match ext.serp_search search_query "google" with
    | some r => .ok (some r, ["serp_search"])
    | none => .ok (none, ["serp_search"])

/-- Stage 2, `find_linkedin_url`: ask the model for the best profile URL in
the search results.  The model call sits in an inner `try` whose handler
sets the URL to `None` instead of re-raising. -/
def find_linkedin_url (ext : Ext) (s : EnrichState) : StageResult :=
  match s.linkedin_url with
  | some existing_url => .ok (some existing_url, [])
  | none =>
    let google_results := (s.google_results).getD (.vStr "")
    let lead_details : PyVal :=
      .vDict [("name", .vStr s.name), ("company_name", .vStr s.company_name)]
    let messages := get_linkedin_url_messages lead_details google_results
    match ext.llm_invoke "LinkedInURLResult" messages with
    | .ok analysis => .ok (pyAttr analysis "linkedin_url", ["llm_invoke"])
    | .error _ => .ok (none, ["llm_invoke"])

/-- Stage 3, `scrape_linkedin`: trigger/poll/fetch the individual-profile
dataset; raises if no snapshot id is returned or the poll times out. -/
def scrape_linkedin (ext : Ext) (s : EnrichState) : StageResult :=
  match s.linkedin_details_raw with
  | some existing_raw => .ok (some existing_raw, [])
  | none =>
    let dataset_id := "gd_l1viktl72bvl7bjuj0"
    let urls := [s.linkedin_url]
    match ext.trigger_scrape dataset_id urls with
    | .error e => .error e
    | .ok trigger_res =>
      match pyAttr trigger_res "snapshot_id" with
      | none => .error "Snapshot ID not found in response"
      | some snapshot_id =>
        if ¬ pyTruthy snapshot_id then .error "Snapshot ID not found in response"
        else
          match ext.poll_progress snapshot_id with
          | .error e => .error e
          | .ok true =>
            .ok (ext.get_snapshot snapshot_id,
                 ["trigger_scrape", "poll_progress", "get_snapshot"])
          | .ok false => .error "Scrape job timed out before completion."

/-- Stage 4, `analyze_linkedin`: normalize the raw scrape into a structured
profile via the model; errors propagate. -/
def analyze_linkedin (ext : Ext) (s : EnrichState) : StageResult :=
  match s.linkedin_details with
  | some existing_details => .ok (some existing_details, [])
  | none =>
    let linkedin_details_raw := (s.linkedin_details_raw).getD (.vDict [])
    let lead_details : PyVal :=
      .vDict [("name", .vStr s.name), ("company_name", .vStr s.company_name)]
    let messages := get_linkedin_profile_analysis_messages lead_details linkedin_details_raw
    match ext.llm_invoke "LinkedInProfileResult" messages with
    | .error e => .error e
    | .ok analysis => .ok (some analysis, ["llm_invoke"])

/-- Stage 5, `find_company_search_results`: search the company name, fetch
the first organic result's page through the unlocker, and summarize it with
the model.  Indexing `[0]` into an empty organic list, or attribute access
on a `None` search result, raises. -/
def find_company_search_results (ext : Ext) (s : EnrichState) : StageResult :=
  match s.company_search_results with
  | some existing_results => .ok (some existing_results, [])
  | none =>
    let search_query := s.company_name
    match ext.serp_search search_query "google" with
    | none => .error "AttributeError: NoneType has no attribute get"
    | some google_results =>
      let organic :=
        match google_results with
        | .vDict d => dictGetD d "organic" (.vList [.vDict []])
        | _ => .vList [.vDict []]
      match organic with
      | .vList [] => .error "IndexError: list index out of range"
      | .vList (first :: _) =>
        let website_url :=
          match first with
          | .vDict d => dictGetD d "link" (.vStr "")
          | _ => .vStr ""
        let website_content := (ext.scrape_with_web_unlocker website_url).getD .vNone
        let summary_message :=
          get_company_summary_messages s.company_name website_url website_content
        match ext.llm_invoke "CompanySummaryResult" summary_message with
        | .error e => .error e
        | .ok company_summary =>
          .ok (some company_summary, ["serp_search", "scrape_with_web_unlocker", "llm_invoke"])
      | _ => .error "TypeError: object is not subscriptable"

/-- Stage 6, `find_company_linkedin_url`: search
`site:linkedin.com/company/ {company}` and ask the model for the company
page URL; a falsy answer becomes `None`. -/
def find_company_linkedin_url (ext : Ext) (s : EnrichState) : StageResult :=
  match s.company_linkedin_url with
  | some existing_url => .ok (some existing_url, [])
  | none =>
    let search_query := "site:linkedin.com/company/ " ++ s.company_name
    let google_results := (ext.serp_search search_query "google").getD .vNone
    let company_details : PyVal :=
      .vDict [("company", .vStr s.company_name),
              ("location",
                match s.lead_details with
                | .vDict d => dictGetD d "location" (.vStr "")
                | _ => .vStr "")]
    let messages := get_company_linkedin_url_messages company_details google_results
    match ext.llm_invoke "LinkedInURLResult" messages with
    | .error e => .error e
    | .ok analysis =>
      match pyAttr analysis "linkedin_url" with
      | some url =>
        if pyTruthy url then .ok (some url, ["serp_search", "llm_invoke"])
        else .ok (none, ["serp_search", "llm_invoke"])
      | none => .ok (none, ["serp_search", "llm_invoke"])

/-- Stage 7, `scrape_company_linkedin`: trigger/poll/fetch the company-page
dataset; raises on missing snapshot id or poll timeout. -/
def scrape_company_linkedin (ext : Ext) (s : EnrichState) : StageResult :=
  match s.company_linkedin_details with
  | some existing => .ok (some existing, [])
  | none =>
    let dataset_id := "gd_l1vikfnt1wgvvqz95w"
    let urls := [s.company_linkedin_url]
    match ext.trigger_scrape dataset_id urls with
    | .error e => .error e
    | .ok trigger_res =>
      match pyAttr trigger_res "snapshot_id" with
      | none => .error "Snapshot ID not found in response"
      | some snapshot_id =>
        if ¬ pyTruthy snapshot_id then .error "Snapshot ID not found in response"
        else
          match ext.poll_progress snapshot_id with
          | .error e => .error e
          | .ok true =>
            .ok (ext.get_snapshot snapshot_id,
                 ["trigger_scrape", "poll_progress", "get_snapshot"])
          | .ok false => .error "Scrape job timed out before completion."

/-- Stage 8, `analyze_company_linkedin`: normalize the scraped company page
via the model; errors propagate. -/
def analyze_company_linkedin (ext : Ext) (s : EnrichState) : StageResult :=
  match s.company_linkedin_analysis with
  | some existing => .ok (some existing, [])
  | none =>
    let company_linkedin_details := (s.company_linkedin_details).getD (.vDict [])
    let messages := get_linkedin_company_analysis_messages company_linkedin_details
    match ext.llm_invoke "CompanyProfile" messages with
    | .error e => .error e
    | .ok analysis => .ok (some analysis, ["llm_invoke"])

/-! ## AI lead scoring engine (`app/utils/ai_lead_scoring.py`)

`ScoreBreakdown` is a plain dataclass: its constructor accepts any values
for its 13 named fields (no validation), rejects unknown keyword names, and
defaults every missing field. -/

/-- The `ScoreBreakdown` dataclass, field values as the parsed JSON gave
them. -/
structure ScoreBreakdown where
  role_fit : PyVal := .vInt 0
  industry_alignment : PyVal := .vInt 0
  company_size : PyVal := .vInt 0
  geographic_fit : PyVal := .vInt 0
  psychographic_fit : PyVal := .vInt 0
  motivation_alignment : PyVal := .vInt 0
  micro_audience_bonus : PyVal := .vInt 0
  red_flags_penalty : PyVal := .vInt 0
  total_score : PyVal := .vInt 0
  grade : PyVal := .vStr "F"
  recommended_campaign : PyVal := .vStr ""
  priority : PyVal := .vStr "Low"
  reasoning : PyVal := .vStr ""
deriving Repr

/-- Apply one keyword argument to a `ScoreBreakdown` under construction;
`none` is Python's `TypeError` for an unexpected keyword name. -/
def scoreApplyKwarg (s : ScoreBreakdown) (kv : String × PyVal) : Option ScoreBreakdown :=
  if kv.1 = "role_fit" then some { s with role_fit := kv.2 }
  else if kv.1 = "industry_alignment" then some { s with industry_alignment := kv.2 }
  else if kv.1 = "company_size" then some { s with company_size := kv.2 }
  else if kv.1 = "geographic_fit" then some { s with geographic_fit := kv.2 }
  else if kv.1 = "psychographic_fit" then some { s with psychographic_fit := kv.2 }
  else if kv.1 = "motivation_alignment" then some { s with motivation_alignment := kv.2 }
  else if kv.1 = "micro_audience_bonus" then some { s with micro_audience_bonus := kv.2 }
  else if kv.1 = "red_flags_penalty" then some { s with red_flags_penalty := kv.2 }
  else if kv.1 = "total_score" then some { s with total_score := kv.2 }
  else if kv.1 = "grade" then some { s with grade := kv.2 }
  else if kv.1 = "recommended_campaign" then some { s with recommended_campaign := kv.2 }
  else if kv.1 = "priority" then some { s with priority := kv.2 }
  else if kv.1 = "reasoning" then some { s with reasoning := kv.2 }
  else none

/-- `ScoreBreakdown(**score_data)`: fold the parsed JSON object's entries
over the defaulted dataclass, failing on any unknown key. -/
def scoreBreakdownOfKwargs (entries : List (String × PyVal)) : Option ScoreBreakdown :=
  entries.foldlM scoreApplyKwarg {}

/-- The `except` branch of `AIScoringEngine.score_lead`: a zeroed score
with grade F, priority Low, campaign "General Outreach" and a reasoning
string describing the error. -/
def scoringFallback (e : String) : ScoreBreakdown :=
  { total_score := .vInt 0
    grade := .vStr "F"
    recommended_campaign := .vStr "General Outreach"
    priority := .vStr "Low"
    reasoning := .vStr ("Error in scoring: " ++ e) }

/-- `AIScoringEngine.score_lead` (`app/utils/ai_lead_scoring.py` lines
140–173) applied to the outcome of `_call_ai` + `json.loads`: on success
the parsed fields are passed through the `ScoreBreakdown` constructor
unchanged (the rubric's ranges and grade thresholds appear only in the
prompt text and are never checked or clamped); any failure — model call,
JSON parse, or an unexpected field name — yields `scoringFallback`. -/
def score_lead_engine (resp : Except String (List (String × PyVal))) : ScoreBreakdown :=
  match resp with
  | .error e => scoringFallback e
  | .ok score_data =>
    match scoreBreakdownOfKwargs score_data with
    | some score => score
    | none => scoringFallback "TypeError: unexpected keyword argument"

/-- `asdict(score)`: the dataclass rendered as a dict (the success-path
return value of `score_lead`, and the value the pipeline stores). -/
def scoreBreakdownAsDict (s : ScoreBreakdown) : PyVal :=
  .vDict [("role_fit", s.role_fit), ("industry_alignment", s.industry_alignment),
          ("company_size", s.company_size), ("geographic_fit", s.geographic_fit),
          ("psychographic_fit", s.psychographic_fit),
          ("motivation_alignment", s.motivation_alignment),
          ("micro_audience_bonus", s.micro_audience_bonus),
          ("red_flags_penalty", s.red_flags_penalty), ("total_score", s.total_score),
          ("grade", s.grade), ("recommended_campaign", s.recommended_campaign),
          ("priority", s.priority), ("reasoning", s.reasoning)]

/-- Stage 9, `score_lead`: invoke the scoring engine on the normalized
individual and company profiles. -/
def score_lead_stage (ext : Ext) (s : EnrichState) : StageResult :=
  match s.lead_score with
  | some existing => .ok (some existing, [])
  | none =>
    let linkedin_details := (s.linkedin_details).getD (.vDict [])
    let company_linkedin_details := (s.company_linkedin_details).getD (.vDict [])
    let core := score_lead_engine (ext.call_ai linkedin_details company_linkedin_details)
    .ok (some (scoreBreakdownAsDict core), ["call_ai"])

/-- Stage 10, `find_glassdoor_url`: search `{company} site:glassdoor.com
India`; with no organic results at all, short-circuit to `None` without a
model call; otherwise ask the model and prepend `https://` to a chosen URL
lacking a scheme. -/
def find_glassdoor_url (ext : Ext) (s : EnrichState) : StageResult :=
  match s.glassdoor_url with
  | some existing_url => .ok (some existing_url, [])
  | none =>
    let company_name := s.company_name
    if company_name = "" then .ok (none, [])
    else
      let search_query := company_name ++ " site:glassdoor.com India"
      match ext.serp_search search_query "google" with
      | none => .ok (none, ["serp_search"])
      | some search_results =>
        let organic_missing_or_empty : Bool :=
          !(pyTruthy search_results) ||
          (match search_results with
           | .vDict d =>
             match dictGet d "organic" with
             | none => true
             | some o => !(pyTruthy o)
           | _ => true)
        if organic_missing_or_empty then .ok (none, ["serp_search"])
        else
          let company_details : PyVal :=
            .vDict [("company", .vStr company_name),
                    ("location",
                      match s.lead_details with
                      | .vDict d => dictGetD d "location" (.vStr "")
                      | _ => .vStr "")]
          let messages := get_glassdoor_url_messages company_details search_results
          match ext.llm_invoke "GlassdoorURLResult" messages with
          | .error e => .error e
          | .ok result =>
            match pyAttr result "glassdoor_url" with
            | none => .ok (none, ["serp_search", "llm_invoke"])
            | some url =>
              if ¬ pyTruthy url then .ok (some url, ["serp_search", "llm_invoke"])
              else
                match url with
                | .vStr u =>
                  if ¬ (u.startsWith "http://" ∨ u.startsWith "https://") then
                    .ok (some (.vStr ("https://" ++ u)), ["serp_search", "llm_invoke"])
                  else .ok (some (.vStr u), ["serp_search", "llm_invoke"])
                | other => .ok (some other, ["serp_search", "llm_invoke"])

/-- Stage 11, `scrape_glassdoor`: trigger/poll/fetch the employer-review
dataset with the 1825-day window; every failure mode yields `None` rather
than raising. -/
def scrape_glassdoor (ext : Ext) (s : EnrichState) : StageResult :=
  match s.glassdoor_details with
  | some existing_details => .ok (some existing_details, [])
  | none =>
    match s.glassdoor_url with
    | none => .ok (none, [])
    | some glassdoor_url =>
      if ¬ pyTruthy glassdoor_url then .ok (none, [])
      else
        let dataset_id := "gd_l7j1po0921hbu0ri1z"
        match ext.trigger_scrape_glassdoor_comments dataset_id [glassdoor_url] with
        | .error e => .error e
        | .ok trigger_res =>
          match pyAttr trigger_res "snapshot_id" with
          | none => .ok (none, ["trigger_scrape_glassdoor_comments"])
          | some snapshot_id =>
            if ¬ pyTruthy snapshot_id then
              .ok (none, ["trigger_scrape_glassdoor_comments"])
            else
              match ext.poll_progress snapshot_id with
              | .error e => .error e
              | .ok true =>
                let log := ["trigger_scrape_glassdoor_comments", "poll_progress",
                            "get_snapshot"]
                match ext.get_snapshot snapshot_id with
                | some glassdoor_details =>
                  if pyTruthy glassdoor_details then .ok (some glassdoor_details, log)
                  else .ok (none, log)
                | none => .ok (none, log)
              | .ok false =>
                .ok (none, ["trigger_scrape_glassdoor_comments", "poll_progress"])

/-- Stage 12, `analyze_glassdoor`: with no (truthy) review data, return
`None` without a model call; otherwise coerce a single object into a
one-element list and ask the model for the structured sentiment report. -/
def analyze_glassdoor (ext : Ext) (s : EnrichState) : StageResult :=
  match s.glassdoor_analysis with
  | some existing => .ok (some existing, [])
  | none =>
    if ¬ pyTruthyOpt s.glassdoor_details then .ok (none, [])
    else
      match s.glassdoor_details with
      | none => .ok (none, [])
      | some details =>
        let reviews : List PyVal :=
          match details with
          | .vList xs => xs
          | other => [other]
        if reviews.isEmpty then .ok (none, [])
        else
          let messages := get_glassdoor_analysis_messages s.company_name reviews
          match ext.llm_invoke "GlassdoorAnalysisModel" messages with
          | .error e => .error e
          | .ok response => .ok (some response, ["llm_invoke"])

/-- Stage 13, `find_company_insights`: with neither scraped company detail
nor a review analysis, return `None`; otherwise search `{company} news`
and ask the model to synthesize insights. -/
def find_company_insights (ext : Ext) (s : EnrichState) : StageResult :=
  match s.company_insights with
  | some existing => .ok (some existing, [])
  | none =>
    if ¬ pyTruthyOpt s.company_linkedin_details ∧ ¬ pyTruthyOpt s.glassdoor_analysis then
      .ok (none, [])
    else
      let company_name := s.company_name
      let query := company_name ++ " news"
      let news_items := (ext.serp_search query "google").getD .vNone
      let company_data : PyVal :=
        .vDict [("linkedin_analysis", (s.company_linkedin_analysis).getD .vNone),
                ("glassdoor_analysis", (s.glassdoor_analysis).getD .vNone),
                ("recent_news", news_items),
                ("company_name", .vStr company_name)]
      let messages := get_company_insights_messages company_name company_data
      match ext.llm_invoke "CompanyInsightsModel" messages with
      | .error e => .error e
      | .ok insights => .ok (some insights, ["serp_search", "llm_invoke"])

/-! ## SQL statement abstraction -/

/-- The shape of a dynamic parameterized UPDATE as the data services build
one: the target table, the columns assigned from bind parameters (in SET
order), the columns assigned the SQL literal `NOW()` in the statement text,
the bind-parameter map, and the WHERE column. -/
structure SqlUpdate where
  table : String
  setColumns : List String
  setNowColumns : List String
  params : List (String × PyVal)
  whereColumn : String
deriving Repr

/-- `v is None`. -/
def isVNone : PyVal → Bool
  | .vNone => true
  | _ => false

/-- `update_table_row` (`app/utils/db_utils.py` lines 5–58): given the
`update_data` mapping (`none` for a `None` argument), drop entries whose
value is `None`; if nothing remains do not execute a statement; otherwise
store the literal string `'NOW()'` under `updated_at` and the row id under
`id_param` *into the same mapping*, and build the SET clause from all of
that mapping's keys — so the executed statement's SET clause assigns the
provided columns, `updated_at` (bound to the string `'NOW()'`, not the SQL
function), and `id_param`.  Returns the executed statement, or `none` when
no statement is executed. -/
def update_table_row (table_name : String) (id_value : PyVal) (id_column : String)
    (update_data : Option Dict) : Option SqlUpdate :=
  match update_data with
  | none => none
  | some ud0 =>
    if ud0.isEmpty then none
    else
      let ud1 := ud0.filter fun p => !(isVNone p.2)
      if ud1.isEmpty then none
      else
        let ud2 := dictSet ud1 "updated_at" (.vStr "NOW()")
        let ud3 := dictSet ud2 "id_param" id_value
        some { table := table_name
               setColumns := ud3.map fun p => p.1
               setNowColumns := []
               params := ud3
               whereColumn := id_column }

/-- `update_enrichment_job` (`app/services/company_service.py` lines
135–181): builds `update_data = {'status': status}`, drops `None` values,
and — when non-empty — executes an UPDATE on `enrichment_jobs` whose SET
clause assigns the `update_data` keys plus the SQL literal
`updated_at = NOW()`, keyed by `lead_id`.  The `result` argument is
accepted but never added to `update_data`, so the run's result payload is
not written.  Returns the executed statement (`none` when no statement is
executed, which cannot happen since `status` is a string). -/
def update_enrichment_job (lead_id : String) (status : String)
    (result : Option PyVal) : Option SqlUpdate :=
  let update_data : Dict := [("status", .vStr status)]
  let update_data := update_data.filter fun p => !(isVNone p.2)
  if update_data.isEmpty then none
  else
    some { table := "enrichment_jobs"
           setColumns := update_data.map fun p => p.1
           setNowColumns := ["updated_at"]
           params := update_data ++ [("lead_id", .vStr lead_id)]
           whereColumn := "lead_id" }

/-! ## Leads HTTP endpoint `GET /leads/{id}`
(`app/api/v1/endpoints/leads.py` lines 298–317,
`app/services/lead_service.py` lines 117–138) -/

/-- A raised `HTTPException`: status code and detail text. -/
structure HttpError where
  status_code : Nat
  detail : String
deriving Repr, DecidableEq

/-- `str(HTTPException)` as FastAPI renders it: `"{status_code}: {detail}"`. -/
def httpErrorStr (e : HttpError) : String :=
  Nat.repr e.status_code ++ ": " ++ e.detail

/-- A database row rendered as a dict. -/
abbrev Row := Dict

/-- `lead_service.get_lead`: the lead row left-joined to its company name,
fetched by id — abstracted over the database contents `db`. -/
def get_lead (db : String → Option Row) (lead_id : String) : Option Row :=
  db lead_id

/-- The `try` body of the `read_lead` endpoint handler: fetch the lead and
raise a 404 `HTTPException` if it is absent. -/
def read_lead_try_body (db : String → Option Row) (lead_id : String) :
    Except HttpError Row :=
  match get_lead db lead_id with
  | none => .error { status_code := 404, detail := "Lead not found" }
  | some lead => .ok lead

/-- The `read_lead` endpoint (`GET /leads/{lead_id}`): the handler wraps
its whole body in `try ... except Exception as e: raise HTTPException(500,
f"Error retrieving lead: {str(e)}")`.  `HTTPException` subclasses
`Exception` and the handler has no `except HTTPException: raise` clause
(unlike the enrich endpoint), so the 404 raised inside the `try` is caught
and re-raised as this 500. -/
def read_lead (db : String → Option Row) (lead_id : String) : Except HttpError Row :=
  match read_lead_try_body db lead_id with
  | .ok lead => .ok lead
  | .error e =>
    .error { status_code := 500, detail := "Error retrieving lead: " ++ httpErrorStr e }

/-! ## Bearer tokens (`app/api/v1/endpoints/auth.py`) -/

/-- A signed JWT, embedded as its payload together with the secret and
algorithm it was signed with (the signature determines and is determined by
these, for a fixed payload). -/
structure JwtToken where
  payload : Dict
  sigSecret : String
  sigAlg : String
deriving Repr

/-- `jwt.encode(payload, secret, algorithm)`. -/
def jwt_encode (payload : Dict) (secret alg : String) : JwtToken :=
  { payload := payload, sigSecret := secret, sigAlg := alg }

/-- `jwt.decode(token, secret, algorithms=[alg])` at clock time `now` (unix
seconds): signature verification requires the same secret and an allowed
algorithm; an integer `exp` claim strictly in the past raises
`ExpiredSignatureError`; a malformed `exp` raises a claims error; all of
these are `JWTError`s, returned here as `.error`. -/
def jwt_decode (t : JwtToken) (secret : String) (algs : List String)
    (now : Int) : Except String Dict :=
  if t.sigSecret = secret ∧ t.sigAlg ∈ algs then
    match dictGet t.payload "exp" with
    | some (.vInt e) =>
      if e < now then .error "ExpiredSignatureError" else .ok t.payload
    | some _ => .error "JWTClaimsError"
    | none => .ok t.payload
  else .error "JWTError: signature verification failed"

/-- `create_access_token(data)` with no explicit delta
(`app/api/v1/endpoints/auth.py` lines 64–72): copy the data, set the `exp`
claim to now + `ACCESS_TOKEN_EXPIRE_MINUTES` minutes, and sign with the
configured secret and algorithm. -/
def create_access_token (secret alg : String) (expire_minutes : Int)
    (data : Dict) (now : Int) : JwtToken :=
  jwt_encode (dictSet data "exp" (.vInt (now + expire_minutes * 60))) secret alg

/-- `decode_access_token(token)` (lines 74–79): decode with the same secret
and algorithm; any `JWTError` becomes an HTTP 401 "Invalid token". -/
def decode_access_token (secret alg : String) (t : JwtToken)
    (now : Int) : Except HttpError Dict :=
  match jwt_decode t secret [alg] now with
  | .ok payload => .ok payload
  | .error _ => .error { status_code := 401, detail := "Invalid token" }

/-- `login_user(payload)` (lines 140–147): look the user up by email
(abstracted as the already-fetched `user` row), verify the password
(abstracted as `password_ok`), and on success issue a token whose `sub` is
`user["id"]`; otherwise raise 401.  A user row without an `id` key would
raise a `KeyError`, surfaced as a 500. -/
def login_user (secret alg : String) (expire_minutes : Int)
    (user : Option Row) (password_ok : Bool) (now : Int) :
    Except HttpError JwtToken :=
  match user with
  | none => .error { status_code := 401, detail := "Invalid email or password" }
  | some u =>
    if ¬ password_ok then .error { status_code := 401, detail := "Invalid email or password" }
    else
      match dictGet u "id" with
      | some uid => .ok (create_access_token secret alg expire_minutes [("sub", uid)] now)
      | none => .error { status_code := 500, detail := "KeyError: id" }

/-! ## Lead creation (`app/services/lead_service.py` lines 10–81) -/

/-- The optional JSON-bearing fields `create_lead` copies from its input
when present. -/
def leadJsonFields : List String :=
  ["messages", "lead_details", "linkedin_details_raw", "linkedin_details",
   "lead_score", "engagement_metrics", "stage_metadata", "content",
   "glassdoor_comments"]

/-- The `lead_dict` that `create_lead` inserts: a generated id, the
name/email/designation from the input, the resolved company id (or `None`),
the hard-coded `lead_stage = 'new'`, and then each optional JSON field
copied from the input if its key is present.  `get_or_create` abstracts
the company get-or-create lookup. -/
def create_lead_row (get_or_create : PyVal → Option Row) (gen_id : String)
    (lead_data : Dict) : Dict :=
  let company : Option Row :=
    match dictGet lead_data "company" with
    | some cv => if pyTruthy cv then get_or_create cv else none
    | none => none
  let base : Dict :=
    [("id", .vStr gen_id),
     ("name", dictGetD lead_data "name" .vNone),
     ("email", dictGetD lead_data "email" .vNone),
     ("designation", dictGetD lead_data "designation" .vNone),
     ("company_id", match company with
                    | some c => dictGetD c "id" .vNone
                    | none => .vNone),
     ("lead_stage", .vStr "new")]
  leadJsonFields.foldl
    (fun d f =>
      match dictGet lead_data f with
      | some v => dictSet d f v
      | none => d)
    base

/-! ## Helper lemmas -/

/-- Looking past a head entry stored under a different key. -/
theorem dictGet_cons_ne (hd : String × PyVal) (tl : Dict) (k2 : String)
    (h : hd.1 ≠ k2) : dictGet (hd :: tl) k2 = dictGet tl k2 := by
  unfold dictGet
  rw [List.find?_cons_of_neg]
  simp [h]

/-- Looking up the head entry's key finds the head entry. -/
theorem dictGet_cons_eq (hd : String × PyVal) (tl : Dict) (k2 : String)
    (h : hd.1 = k2) : dictGet (hd :: tl) k2 = some hd.2 := by
  unfold dictGet
  rw [List.find?_cons_of_pos _ (by simp [h])]
  rfl

/-- Overwriting key `k` does not change the value found under a different
key `k2`, in the overwrite branch of `dictSet`. -/
theorem dictGet_map_overwrite_ne (d : Dict) (k k2 : String) (v : PyVal) (h : k ≠ k2) :
    dictGet (d.map fun p => if p.1 = k then (k, v) else p) k2 = dictGet d k2 := by
  induction d with
  | nil => rfl
  | cons hd tl ih =>
    by_cases hk : hd.1 = k
    · rw [List.map_cons, if_pos hk, dictGet_cons_ne _ _ _ h,
        dictGet_cons_ne hd tl k2 (by rw [hk]; exact h)]
      exact ih
    · rw [List.map_cons, if_neg hk]
      by_cases hk2 : hd.1 = k2
      · rw [dictGet_cons_eq _ _ _ hk2, dictGet_cons_eq _ _ _ hk2]
      · rw [dictGet_cons_ne _ _ _ hk2, dictGet_cons_ne _ _ _ hk2]
        exact ih

/-- Appending an entry for key `k` does not change the value found under a
different key `k2`. -/
theorem dictGet_append_ne (d : Dict) (k k2 : String) (v : PyVal) (h : k ≠ k2) :
    dictGet (d ++ [(k, v)]) k2 = dictGet d k2 := by
  induction d with
  | nil =>
    rw [List.nil_append, dictGet_cons_ne _ _ _ h]
  | cons hd tl ih =>
    rw [List.cons_append]
    by_cases hk2 : hd.1 = k2
    · rw [dictGet_cons_eq _ _ _ hk2, dictGet_cons_eq _ _ _ hk2]
    · rw [dictGet_cons_ne _ _ _ hk2, dictGet_cons_ne _ _ _ hk2]
      exact ih

/-- `dictSet` at key `k` preserves lookups at any other key. -/
theorem dictGet_dictSet_ne (d : Dict) (k k2 : String) (v : PyVal) (h : k ≠ k2) :
    dictGet (dictSet d k v) k2 = dictGet d k2 := by
  unfold dictSet
  split
  · exact dictGet_map_overwrite_ne d k k2 v h
  · exact dictGet_append_ne d k k2 v h

/-- Copying fields other than `"lead_stage"` from the input preserves the
`lead_stage` entry of the row under construction. -/
theorem foldCopy_lead_stage (lead_data : Dict) (fields : List String) (base : Dict)
    (h : "lead_stage" ∉ fields) :
    dictGet
      (fields.foldl
        (fun d f =>
          match dictGet lead_data f with
          | some v => dictSet d f v
          | none => d)
        base) "lead_stage" = dictGet base "lead_stage" := by
  induction fields generalizing base with
  | nil => rfl
  | cons f rest ih =>
    have hf : f ≠ "lead_stage" := fun hf => h (hf ▸ List.mem_cons_self f rest)
    have hrest : "lead_stage" ∉ rest := fun hr => h (List.mem_cons_of_mem f hr)
    simp only [List.foldl_cons]
    cases hlook : dictGet lead_data f with
    | none => simpa using ih base hrest
    | some v =>
      rw [ih (dictSet base f v) hrest]
      exact dictGet_dictSet_ne base f "lead_stage" v hf

/-- The initial workflow state's context is the supplied context. -/
theorem execute_initial_state_context (uq : String) (ctx : Context) (oq : Option String) :
    (execute_initial_state uq (some ctx) oq).context = ctx := by
  unfold execute_initial_state
  dsimp only
  split <;> rfl

/-- A hit in a string-to-string table yields one of the table's values. -/
theorem tableGet_mem_values (m : List (String × String)) (k v : String)
    (h : tableGet m k = some v) : v ∈ m.map fun p => p.2 := by
  induction m with
  | nil => simp [tableGet] at h
  | cons hd tl ih =>
    unfold tableGet at h
    by_cases hk : hd.1 = k
    · rw [List.find?_cons_of_pos _ (by simp [hk])] at h
      have hv : hd.2 = v := by
        simpa using h
      rw [List.map_cons, ← hv]
      exact List.mem_cons_self _ _
    · rw [List.find?_cons_of_neg _ (by simp [hk])] at h
      exact List.mem_cons_of_mem _ (ih h)

/-- A hit in the advisor reverse table always names a registered advisor. -/
theorem tableGet_mem_registered (sa apt : String)
    (h : tableGet agent_class_to_problem_type sa = some apt) :
    apt ∈ registeredAgentNames := by
  have hv := tableGet_mem_values agent_class_to_problem_type sa apt h
  have hsub : ∀ x ∈ agent_class_to_problem_type.map (fun p => p.2),
      x ∈ registeredAgentNames := by decide
  exact hsub apt hv

/-! ## The checked properties -/

/-- C1: the spec says every standard-flow advisor, given a context missing
at least one required field, must return immediately with
`requires_clarification = true`, the remaining fixed questions, the
unmodified context and confidence 0.5, issuing no model call, and must call
the model only when all required fields are present — with the Attrition
advisor asking about team size first on an empty context.  The code instead
branches on the Python truthiness of the missing-field *index* returned by
`check_clarification_needed`: index 0 (first field missing — in particular
the empty context) is falsy, so `run_agent` proceeds straight to the
chat-completion call; index −1 (no field missing) is truthy, so a complete
context gets `requires_clarification = true` with an empty question list
and no model call.  Only the intermediate case behaves as specified: with
only `team_size` set (index 1) the clarification response is returned and
its first question is about the turnover rate. -/
theorem attrition_clarification_gate_inverted (model : Except String AgentResponse) :
    (attrition_run_agent model []).modelCalled = true
  ∧ (attrition_run_agent model attritionFullContext).modelCalled = false
  ∧ (attrition_run_agent model attritionFullContext).response.requires_clarification = true
  ∧ (attrition_run_agent model attritionFullContext).response.next_questions = []
  ∧ (attrition_run_agent model attritionTeamSizeOnly).modelCalled = false
  ∧ (attrition_run_agent model attritionTeamSizeOnly).response.requires_clarification = true
  ∧ (attrition_run_agent model attritionTeamSizeOnly).response.next_questions.head? =
      some "What is your current turnover rate or how many people have left recently?" :=
  ⟨rfl, rfl, rfl, rfl, rfl, rfl, rfl⟩

/-- C2: when the incoming context already contains a non-empty
`problem_type`, a non-empty `suggested_agent` and a confidence greater
than 0, the classification node issues no HTTP classification call and the
resulting state's `problem_type`, `suggested_agent` and `confidence` are
those exact context values — for every classification oracle, utterance and
original query. -/
theorem classifier_reuses_cached_classification
    (classify : ClassifyOracle) (ctx : Context) (uq : String) (oq : Option String)
    (pt sa : String) (c : ℚ)
    (hpt : dictGet ctx "problem_type" = some (.vStr pt)) (hptne : pt ≠ "")
    (hsa : dictGet ctx "suggested_agent" = some (.vStr sa)) (hsane : sa ≠ "")
    (hc : dictGet ctx "confidence" = some (.vRat c)) (hcpos : 0 < c) :
    (problem_classifier_node classify (execute_initial_state uq (some ctx) oq)).apiCalled
        = false
  ∧ (problem_classifier_node classify
        (execute_initial_state uq (some ctx) oq)).state.problem_type = .vStr pt
  ∧ (problem_classifier_node classify
        (execute_initial_state uq (some ctx) oq)).state.suggested_agent = .vStr sa
  ∧ (problem_classifier_node classify
        (execute_initial_state uq (some ctx) oq)).state.confidence = .vRat c := by
  have hctx := execute_initial_state_context uq ctx oq
  have h1 : dictGetD ctx "problem_type" (.vStr "") = .vStr pt := by
    simp [dictGetD, hpt]
  have h2 : dictGetD ctx "suggested_agent" (.vStr "") = .vStr sa := by
    simp [dictGetD, hsa]
  have h3 : dictGetD ctx "confidence" (.vRat 0) = .vRat c := by
    simp [dictGetD, hc]
  have hcond : pyTruthy (dictGetD ctx "problem_type" (.vStr "")) = true
      ∧ pyTruthy (dictGetD ctx "suggested_agent" (.vStr "")) = true
      ∧ pyGtZero (dictGetD ctx "confidence" (.vRat 0)) = true := by
    refine ⟨?_, ?_, ?_⟩
    · rw [h1]; simpa [pyTruthy] using hptne
    · rw [h2]; simpa [pyTruthy] using hsane
    · rw [h3]; simpa [pyGtZero] using hcpos
  unfold problem_classifier_node
  rw [hctx]
  rw [if_pos hcond]
  exact ⟨rfl, by simpa using h1, by simpa using h2, by simpa using h3⟩

/-- C2 witness: a concrete cached context through the classifier node. -/
theorem classifier_reuses_cached_classification_witness :
    (problem_classifier_node (fun _ => none)
      (execute_initial_state "next turn" (some
        [("problem_type", .vStr "Attrition"), ("suggested_agent", .vStr "AttritionAgent"),
         ("confidence", .vRat (9/10))]) none)).apiCalled = false
  ∧ (problem_classifier_node (fun _ => none)
      (execute_initial_state "next turn" (some
        [("problem_type", .vStr "Attrition"), ("suggested_agent", .vStr "AttritionAgent"),
         ("confidence", .vRat (9/10))]) none)).state.problem_type = .vStr "Attrition"
  ∧ (problem_classifier_node (fun _ => none)
      (execute_initial_state "next turn" (some
        [("problem_type", .vStr "Attrition"), ("suggested_agent", .vStr "AttritionAgent"),
         ("confidence", .vRat (9/10))]) none)).state.suggested_agent = .vStr "AttritionAgent"
  ∧ (problem_classifier_node (fun _ => none)
      (execute_initial_state "next turn" (some
        [("problem_type", .vStr "Attrition"), ("suggested_agent", .vStr "AttritionAgent"),
         ("confidence", .vRat (9/10))]) none)).state.confidence = .vRat (9/10) :=
  classifier_reuses_cached_classification (fun _ => none)
    [("problem_type", .vStr "Attrition"), ("suggested_agent", .vStr "AttritionAgent"),
     ("confidence", .vRat (9/10))]
    "next turn" none "Attrition" "AttritionAgent" (9/10)
    rfl (by decide) rfl (by decide) rfl (by norm_num)

/-- When the supplied context carries both keys, `execute` seeds the
initial state's pair from the context. -/
theorem execute_initial_state_seeded (uq : String) (ctx : Context) (oq : Option String)
    (sa pt : PyVal)
    (hsa : dictGet ctx "suggested_agent" = some sa)
    (hpt : dictGet ctx "problem_type" = some pt) :
    (execute_initial_state uq (some ctx) oq).suggested_agent = sa
    ∧ (execute_initial_state uq (some ctx) oq).problem_type = pt := by
  have hne : ¬ (ctx.isEmpty = true) := by
    cases ctx with
    | nil => simp [dictGet] at hsa
    | cons a b => simp
  unfold execute_initial_state
  dsimp only
  rw [if_pos ⟨hne, by simp [dictHas, hsa], by simp [dictHas, hpt]⟩]
  exact ⟨by simp [dictGetD, hsa], by simp [dictGetD, hpt]⟩

/-- With a truthy pair both in the context and in the state, the classifier
node issues no call, keeps the pair, and leaves the context untouched. -/
theorem classifier_no_call_when_pair_present (classify : ClassifyOracle)
    (state : WorkflowState) (sa pt : String)
    (hsa : dictGet state.context "suggested_agent" = some (.vStr sa)) (hsane : sa ≠ "")
    (hpt : dictGet state.context "problem_type" = some (.vStr pt)) (hptne : pt ≠ "")
    (hssa : state.suggested_agent = .vStr sa) (hspt : state.problem_type = .vStr pt) :
    (problem_classifier_node classify state).apiCalled = false
    ∧ (problem_classifier_node classify state).state.suggested_agent = .vStr sa
    ∧ (problem_classifier_node classify state).state.problem_type = .vStr pt
    ∧ (problem_classifier_node classify state).state.context = state.context := by
  simp only [problem_classifier_node]
  split
  · exact ⟨rfl, by simp [dictGetD, hsa], by simp [dictGetD, hpt], rfl⟩
  · split
    · exact ⟨rfl, by rw [hssa], by rw [hspt], rfl⟩
    · rename_i h2
      exfalso
      apply h2
      exact ⟨by rw [hssa]; simpa [pyTruthy] using hsane,
             by rw [hspt]; simpa [pyTruthy] using hptne⟩

/-- With a truthy pair in the context, the agent-manager node re-asserts
exactly that pair before routing. -/
theorem agent_manager_selection_from_context (state : WorkflowState) (sa pt : String)
    (hsa : dictGet state.context "suggested_agent" = some (.vStr sa)) (hsane : sa ≠ "")
    (hpt : dictGet state.context "problem_type" = some (.vStr pt)) (hptne : pt ≠ "") :
    agent_manager_node_selection state = (.vStr pt, .vStr sa) := by
  have h1 : dictGetD state.context "suggested_agent" (.vStr "") = .vStr sa := by
    simp [dictGetD, hsa]
  have h2 : dictGetD state.context "problem_type" (.vStr "") = .vStr pt := by
    simp [dictGetD, hpt]
  simp only [agent_manager_node_selection, h1, h2]
  rw [if_pos ⟨by simpa [pyTruthy] using hsane, by simpa [pyTruthy] using hptne⟩]

/-- `route_to_agent` with a suggested advisor known to the reverse table
selects exactly that advisor's domain, whatever the problem type says. -/
theorem route_selection_suggested (pt : PyVal) (sa apt : String)
    (hmap : tableGet agent_class_to_problem_type sa = some apt) (hsane : sa ≠ "") :
    route_to_agent_selection pt (.vStr sa) = some apt := by
  have hreg : apt ∈ registeredAgentNames := tableGet_mem_registered sa apt hmap
  simp only [route_to_agent_selection]
  rw [if_pos (by simpa [pyTruthy] using hsane)]
  simp only [hmap]
  rw [if_pos hreg]

/-- C3: once the conversation context carries a `suggested_agent` /
`problem_type` pair (the advisor identifier being one the reverse table
knows), every subsequent turn routes to the advisor determined by that
identifier — for every classification oracle and every utterance — the
classification endpoint is not called, and the context (hence the stored
pair) leaves the classification step unchanged.  The supplied identifier
therefore takes absolute precedence over any classification of the current
utterance, and the serving advisor cannot change mid-conversation. -/
theorem context_pair_pins_advisor
    (classify : ClassifyOracle) (uq : String) (oq : Option String) (ctx : Context)
    (sa pt apt : String)
    (hsa : dictGet ctx "suggested_agent" = some (.vStr sa)) (hsane : sa ≠ "")
    (hpt : dictGet ctx "problem_type" = some (.vStr pt)) (hptne : pt ≠ "")
    (hmap : tableGet agent_class_to_problem_type sa = some apt) :
    turn_advisor_selection classify uq (some ctx) oq = (some apt, false, ctx) := by
  have hctx := execute_initial_state_context uq ctx oq
  have hseed := execute_initial_state_seeded uq ctx oq (.vStr sa) (.vStr pt) hsa hpt
  have hclass := classifier_no_call_when_pair_present classify
    (execute_initial_state uq (some ctx) oq) sa pt
    (by rw [hctx]; exact hsa) hsane (by rw [hctx]; exact hpt) hptne hseed.1 hseed.2
  have hsel := agent_manager_selection_from_context
    (problem_classifier_node classify (execute_initial_state uq (some ctx) oq)).state sa pt
    (by rw [hclass.2.2.2, hctx]; exact hsa) hsane
    (by rw [hclass.2.2.2, hctx]; exact hpt) hptne
  simp only [turn_advisor_selection, hsel]
  rw [route_selection_suggested (.vStr pt) sa apt hmap hsane, hclass.1, hclass.2.2.2, hctx]

/-- C3 witness: a context pinned to the Performance advisor keeps routing
there even when the oracle would classify the current utterance as
Culture. -/
theorem context_pair_pins_advisor_witness :
    turn_advisor_selection
      (fun _ => some (.vStr "Culture", .vStr "CultureAgent", .vRat 1))
      "our culture feels off lately"
      (some [("suggested_agent", .vStr "PerformanceAgent"),
             ("problem_type", .vStr "Performance")])
      none
    = (some "Performance", false,
       [("suggested_agent", .vStr "PerformanceAgent"),
        ("problem_type", .vStr "Performance")]) :=
  context_pair_pins_advisor
    (fun _ => some (.vStr "Culture", .vStr "CultureAgent", .vRat 1))
    "our culture feels off lately" none
    [("suggested_agent", .vStr "PerformanceAgent"), ("problem_type", .vStr "Performance")]
    "PerformanceAgent" "Performance" "Performance"
    rfl (by decide) rfl (by decide) rfl

/-- C4: every one of the 13 enrichment-pipeline stages, on an input state
whose output field is already populated (not `None`), returns that field's
value unchanged and performs no external call — no scraping, search,
unlocker, or model invocation — so the pipeline is safely re-runnable on a
partially enriched record. -/
theorem enrichment_stages_idempotent (ext : Ext) (s : EnrichState) (v : PyVal) :
    (s.google_results = some v → serp_search_google ext s = .ok (some v, []))
  ∧ (s.linkedin_url = some v → find_linkedin_url ext s = .ok (some v, []))
  ∧ (s.linkedin_details_raw = some v → scrape_linkedin ext s = .ok (some v, []))
  ∧ (s.linkedin_details = some v → analyze_linkedin ext s = .ok (some v, []))
  ∧ (s.company_search_results = some v →
        find_company_search_results ext s = .ok (some v, []))
  ∧ (s.company_linkedin_url = some v → find_company_linkedin_url ext s = .ok (some v, []))
  ∧ (s.company_linkedin_details = some v →
        scrape_company_linkedin ext s = .ok (some v, []))
  ∧ (s.company_linkedin_analysis = some v →
        analyze_company_linkedin ext s = .ok (some v, []))
  ∧ (s.lead_score = some v → score_lead_stage ext s = .ok (some v, []))
  ∧ (s.glassdoor_url = some v → find_glassdoor_url ext s = .ok (some v, []))
  ∧ (s.glassdoor_details = some v → scrape_glassdoor ext s = .ok (some v, []))
  ∧ (s.glassdoor_analysis = some v → analyze_glassdoor ext s = .ok (some v, []))
  ∧ (s.company_insights = some v → find_company_insights ext s = .ok (some v, [])) := by
  refine ⟨?_, ?_, ?_, ?_, ?_, ?_, ?_, ?_, ?_, ?_, ?_, ?_, ?_⟩ <;> intro h
  · simp [serp_search_google, h]
  · simp [find_linkedin_url, h]
  · simp [scrape_linkedin, h]
  · simp [analyze_linkedin, h]
  · simp [find_company_search_results, h]
  · simp [find_company_linkedin_url, h]
  · simp [scrape_company_linkedin, h]
  · simp [analyze_company_linkedin, h]
  · simp [score_lead_stage, h]
  · simp [find_glassdoor_url, h]
  · simp [scrape_glassdoor, h]
  · simp [analyze_glassdoor, h]
  · simp [find_company_insights, h]

/-- An offline oracle set: every provider is unreachable. -/
def extStub : Ext :=
  { serp_search := fun _ _ => none
    scrape_with_web_unlocker := fun _ => none
    trigger_scrape := fun _ _ => .error "offline"
    trigger_scrape_glassdoor_comments := fun _ _ => .error "offline"
    poll_progress := fun _ => .ok false
    get_snapshot := fun _ => none
    llm_invoke := fun _ _ => .error "offline"
    call_ai := fun _ _ => .error "offline" }

/-- A fully enriched pipeline state. -/
def enrichedState : EnrichState :=
  { lead_details := .vDict [("lead_id", .vStr "L1"), ("company_id", .vStr "C1")]
    name := "Jane Doe"
    company_name := "Acme"
    designation := .vStr "Manager"
    email := .vStr "jane@acme.example"
    google_results := some (.vStr "cached")
    linkedin_url := some (.vStr "cached")
    linkedin_details_raw := some (.vStr "cached")
    linkedin_details := some (.vStr "cached")
    lead_score := some (.vStr "cached")
    company_search_results := some (.vStr "cached")
    company_linkedin_url := some (.vStr "cached")
    company_linkedin_details := some (.vStr "cached")
    company_linkedin_analysis := some (.vStr "cached")
    glassdoor_url := some (.vStr "cached")
    glassdoor_details := some (.vStr "cached")
    glassdoor_analysis := some (.vStr "cached")
    company_insights := some (.vStr "cached")
    lead_stage := some (.vStr "new")
    stage_metadata := none }

/-- C4 witness: every stage of a fully enriched state short-circuits even
with all providers offline. -/
theorem enrichment_stages_idempotent_witness :
    serp_search_google extStub enrichedState = .ok (some (.vStr "cached"), [])
  ∧ find_linkedin_url extStub enrichedState = .ok (some (.vStr "cached"), [])
  ∧ scrape_linkedin extStub enrichedState = .ok (some (.vStr "cached"), [])
  ∧ analyze_linkedin extStub enrichedState = .ok (some (.vStr "cached"), [])
  ∧ find_company_search_results extStub enrichedState = .ok (some (.vStr "cached"), [])
  ∧ find_company_linkedin_url extStub enrichedState = .ok (some (.vStr "cached"), [])
  ∧ scrape_company_linkedin extStub enrichedState = .ok (some (.vStr "cached"), [])
  ∧ analyze_company_linkedin extStub enrichedState = .ok (some (.vStr "cached"), [])
  ∧ score_lead_stage extStub enrichedState = .ok (some (.vStr "cached"), [])
  ∧ find_glassdoor_url extStub enrichedState = .ok (some (.vStr "cached"), [])
  ∧ scrape_glassdoor extStub enrichedState = .ok (some (.vStr "cached"), [])
  ∧ analyze_glassdoor extStub enrichedState = .ok (some (.vStr "cached"), [])
  ∧ find_company_insights extStub enrichedState = .ok (some (.vStr "cached"), []) := by
  have T := enrichment_stages_idempotent extStub enrichedState (.vStr "cached")
  exact ⟨T.1 rfl, T.2.1 rfl, T.2.2.1 rfl, T.2.2.2.1 rfl, T.2.2.2.2.1 rfl,
    T.2.2.2.2.2.1 rfl, T.2.2.2.2.2.2.1 rfl, T.2.2.2.2.2.2.2.1 rfl,
    T.2.2.2.2.2.2.2.2.1 rfl, T.2.2.2.2.2.2.2.2.2.1 rfl,
    T.2.2.2.2.2.2.2.2.2.2.1 rfl, T.2.2.2.2.2.2.2.2.2.2.2.1 rfl,
    T.2.2.2.2.2.2.2.2.2.2.2.2 rfl⟩

/-- C5 counterexample: the scoring engine performs no range or threshold
validation — a parsed model reply carrying `total_score = 150` and
`grade = "Z"` is returned exactly as supplied, so the returned total score
is not in [0, 100] and the grade is not one of A/B/C/D/F. -/
theorem scoring_engine_returns_out_of_range_model_output :
    (score_lead_engine (.ok [("total_score", .vInt 150), ("grade", .vStr "Z")])).total_score
      = .vInt 150
  ∧ (score_lead_engine (.ok [("total_score", .vInt 150), ("grade", .vStr "Z")])).grade
      = .vStr "Z"
  ∧ ¬ ((150 : Int) ≤ 100)
  ∧ "Z" ∉ (["A", "B", "C", "D", "F"] : List String) :=
  ⟨rfl, rfl, by decide, by decide⟩

/-- C5 (amended): the scoring engine passes the parsed model output's
fields through the `ScoreBreakdown` constructor unchanged — the [0, 100]
bound and the grade thresholds hold only when the model's own output
satisfies them — and on any failure calling the model or parsing its
output it returns the zeroed score: total_score 0, grade "F", priority
"Low", campaign "General Outreach", with a reasoning string describing the
error, instead of raising to the caller. -/
theorem scoring_engine_passthrough_and_fallback (e : String)
    (d : List (String × PyVal)) (sb : ScoreBreakdown)
    (h : scoreBreakdownOfKwargs d = some sb) :
    (score_lead_engine (.error e)).total_score = .vInt 0
  ∧ (score_lead_engine (.error e)).grade = .vStr "F"
  ∧ (score_lead_engine (.error e)).priority = .vStr "Low"
  ∧ (score_lead_engine (.error e)).recommended_campaign = .vStr "General Outreach"
  ∧ (score_lead_engine (.error e)).reasoning = .vStr ("Error in scoring: " ++ e)
  ∧ score_lead_engine (.ok d) = sb := by
  refine ⟨rfl, rfl, rfl, rfl, rfl, ?_⟩
  simp [score_lead_engine, h]

/-- C5 witness: a concrete in-range model reply is passed through; a
concrete model failure yields the zeroed fallback. -/
theorem scoring_engine_passthrough_and_fallback_witness :
    (score_lead_engine (.error "model unavailable")).total_score = .vInt 0
  ∧ (score_lead_engine (.error "model unavailable")).grade = .vStr "F"
  ∧ (score_lead_engine (.error "model unavailable")).priority = .vStr "Low"
  ∧ (score_lead_engine (.error "model unavailable")).recommended_campaign
      = .vStr "General Outreach"
  ∧ (score_lead_engine (.error "model unavailable")).reasoning
      = .vStr ("Error in scoring: " ++ "model unavailable")
  ∧ score_lead_engine (.ok [("total_score", .vInt 92), ("grade", .vStr "A")]) =
      { total_score := .vInt 92, grade := .vStr "A" } :=
  scoring_engine_passthrough_and_fallback "model unavailable"
    [("total_score", .vInt 92), ("grade", .vStr "A")]
    { total_score := .vInt 92, grade := .vStr "A" } rfl

/-- C6: the enrichment-job write-back sets the job's status (plus
`updated_at = NOW()`), but the run's result payload handed to
`update_enrichment_job` is never added to the update mapping: the executed
UPDATE's SET columns are exactly `["status"]`, whatever the payload is, so
no result snapshot is stored on the job row. -/
theorem enrichment_job_update_drops_result_payload (lead_id : String)
    (payload : Option PyVal) :
    update_enrichment_job lead_id "completed" payload =
      some { table := "enrichment_jobs"
             setColumns := ["status"]
             setNowColumns := ["updated_at"]
             params := [("status", .vStr "completed"), ("lead_id", .vStr lead_id)]
             whereColumn := "lead_id" } := rfl

/-- A concrete lead row joined to its company name. -/
def demoLeadRow : Row :=
  [("id", .vStr "L1"), ("name", .vStr "Jane Doe"), ("company_name", .vStr "Acme")]

/-- C7: when the lead id resolves, `GET /leads/{id}` returns the joined
row; but when it does not, the 404 `HTTPException` raised inside the
handler's `try` is caught by its own `except Exception` clause and
re-raised as a 500 — so a missing lead yields HTTP 500, not the specified
404. -/
theorem read_lead_missing_id_yields_500 :
    read_lead (fun _ => none) "missing-id" =
      .error { status_code := 500, detail := "Error retrieving lead: 404: Lead not found" }
  ∧ read_lead (fun _ => some demoLeadRow) "L1" = .ok demoLeadRow :=
  ⟨rfl, rfl⟩

/-- C8: the generic row-update helper adds both `updated_at` and the WHERE
bind value `id_param` to the update mapping *before* building the SET
clause, so the executed statement's SET clause assigns the provided
columns, `updated_at` (bound to the literal string `'NOW()'`, not the SQL
function `now()`), and additionally `id_param` — not "exactly the provided
columns plus updated_at".  The empty-mapping cases do hold: a missing,
empty, or all-`None` mapping executes no statement and returns no row. -/
theorem update_table_row_set_clause_leaks_id_param :
    update_table_row "leads" (.vStr "lead-1") "id" (some [("lead_stage", .vStr "Aware")]) =
      some { table := "leads"
             setColumns := ["lead_stage", "updated_at", "id_param"]
             setNowColumns := []
             params := [("lead_stage", .vStr "Aware"), ("updated_at", .vStr "NOW()"),
                        ("id_param", .vStr "lead-1")]
             whereColumn := "id" }
  ∧ update_table_row "leads" (.vStr "lead-1") "id" none = none
  ∧ update_table_row "leads" (.vStr "lead-1") "id" (some []) = none
  ∧ update_table_row "leads" (.vStr "lead-1") "id" (some [("linkedin_url", .vNone)]) = none :=
  ⟨rfl, rfl, rfl, rfl⟩

/-- C9: a bearer token issued at login for a user with id `uid` decodes —
with the same secret and algorithm, at issuance time — to a payload whose
subject claim is `uid`; and decoding any token whose integer expiry claim
lies strictly in the past fails and is surfaced as an HTTP 401
unauthorized error. -/
theorem token_round_trip_and_expiry
    (secret alg : String) (expire_minutes now : Int) (user : Row) (uid : PyVal)
    (t_expired : JwtToken) (e : Int)
    (hid : dictGet user "id" = some uid) (hmin : 0 < expire_minutes)
    (hexp : dictGet t_expired.payload "exp" = some (.vInt e)) (hlt : e < now) :
    (∃ t, login_user secret alg expire_minutes (some user) true now = .ok t
        ∧ ∃ p, decode_access_token secret alg t now = .ok p ∧ dictGet p "sub" = some uid)
  ∧ decode_access_token secret alg t_expired now =
      .error { status_code := 401, detail := "Invalid token" } := by
  constructor
  · refine ⟨create_access_token secret alg expire_minutes [("sub", uid)] now, ?_, ?_⟩
    · simp [login_user, hid]
    · have hnotlt : ¬ (now + expire_minutes * 60 < now) := by omega
      refine ⟨[("sub", uid), ("exp", .vInt (now + expire_minutes * 60))], ?_, ?_⟩
      · simp [decode_access_token, create_access_token, jwt_encode, jwt_decode,
          dictSet, dictHas, dictGet, hnotlt]
      · rfl
  · unfold decode_access_token jwt_decode
    by_cases hsig : t_expired.sigSecret = secret ∧ t_expired.sigAlg ∈ [alg]
    · rw [if_pos hsig, hexp]
      simp [hlt]
    · rw [if_neg hsig]

/-- C9 witness: a login-issued token for user `U1` round-trips, and a
token expired 60 seconds ago is rejected with 401. -/
theorem token_round_trip_and_expiry_witness :
    (∃ t, login_user "test-secret" "HS256" 1440 (some [("id", .vStr "U1")]) true 0 = .ok t
        ∧ ∃ p, decode_access_token "test-secret" "HS256" t 0 = .ok p
            ∧ dictGet p "sub" = some (.vStr "U1"))
  ∧ decode_access_token "test-secret" "HS256"
      { payload := [("sub", .vStr "U1"), ("exp", .vInt (-60))],
        sigSecret := "test-secret", sigAlg := "HS256" } 0 =
      .error { status_code := 401, detail := "Invalid token" } :=
  token_round_trip_and_expiry "test-secret" "HS256" 1440 0 [("id", .vStr "U1")]
    (.vStr "U1")
    { payload := [("sub", .vStr "U1"), ("exp", .vInt (-60))],
      sigSecret := "test-secret", sigAlg := "HS256" } (-60)
    rfl (by norm_num) rfl (by norm_num)

/-- C10: the inserted lead row's `lead_stage` is always `"new"`: the value
is hard-coded in the insert dictionary and `lead_stage` is not among the
optional JSON fields copied from the input, so a caller-supplied
`lead_stage` (of any value) is silently ignored rather than stored. -/
theorem create_lead_hardcodes_stage_new
    (get_or_create : PyVal → Option Row) (gen_id : String) (lead_data : Dict) :
    dictGet (create_lead_row get_or_create gen_id lead_data) "lead_stage" =
      some (.vStr "new")
  ∧ "lead_stage" ∉ leadJsonFields := by
  constructor
  · simp only [create_lead_row]
    rw [foldCopy_lead_stage lead_data leadJsonFields _ (by decide)]
    rfl
  · decide

end AiBase
